import Mathlib

/-!
Verification development for `computeSales.py`: a shallow embedding of the
program's data model and functions, followed by theorems settling the spec's
claims.  Python's dynamically typed JSON values are embedded as `PyVal`,
dictionaries as association lists, a raised exception as `Except.error`,
and Python numbers as rationals (ints and floats compare equal in Python
when numerically equal, as rationals do here).
-/

namespace ComputeSales

/-- A Python value as it can appear in a decoded JSON field: `None`, a bool,
a number (int or float, embedded as a rational) or a string. -/
inductive PyVal where
  | none
  | bool (b : Bool)
  | num (q : ℚ)
  | str (s : String)
  deriving DecidableEq

/-- A Python dict of JSON fields: an association list from key to value. -/
def PyDict : Type := List (String × PyVal)

instance : DecidableEq PyDict := by
  unfold PyDict
  infer_instance

/-- `d.get(k)` on a Python dict: the value at key `k`, `None` when absent
(keys of a Python dict are unique, so first match is the entry). -/
def PyDict.get : PyDict → String → PyVal
  | [], _ => PyVal.none
  | (k2, v) :: resto, k => if k2 = k then v else PyDict.get resto k

/-- Python truthiness of a value (`if producto and quantity:`):
`None` and `False` are falsy, a number is falsy iff zero, a string iff empty. -/
def PyVal.truthy : PyVal → Bool
  | .none => false
  | .bool b => b
  | .num q => q != 0
  | .str s => s != ""

/-- The numeric reading of a value where Python arithmetic accepts it:
numbers are themselves, bools are 0 or 1 (Python bool is an int subtype);
`None` and strings have no numeric reading, so arithmetic on them raises. -/
def PyVal.toNum : PyVal → Option ℚ
  | .bool b => some (if b then 1 else 0)
  | .num q => some q
  | _ => Option.none

/-- Python `==` between two values: numeric values (numbers and bools)
compare by value (`True == 1`, `1 == 1.0`); everything else compares
structurally, and cross-type comparisons are `False`, never an error. -/
def pyEq (a b : PyVal) : Bool :=
  match a.toNum, b.toNum with
  | some x, some y => x == y
  | _, _ => decide (a = b)

/-- Python `str()` of a value, as interpolated into the f-string error
messages.  The messages proved about below only interpolate string values,
where `str` is the string itself; the rendering of the other variants
follows Python's `str` (numeric rendering abbreviated to the rational's
canonical form, which no theorem below depends on). -/
def PyVal.pyStr : PyVal → String
  | .none => "None"
  | .bool b => if b then "True" else "False"
  | .num q => toString q
  | .str s => s

/-- Lines 62-65: the list comprehension
`[product for product in catalogo if product.get('title') == producto]`. -/
def cruce (catalogo : List PyDict) (producto : PyVal) : List PyDict :=
  catalogo.filter (fun product => pyEq (product.get "title") producto)

/-- One iteration of the loop at lines 57-78 of `calcular_costo_total`:
given the running total and the errors list so far, process one sales
record.  `Except.error` models a raised `TypeError`: when the record
reaches `subtotal = quantity * price` (line 71) with a non-numeric
`quantity` or `price`, Python raises, either at the multiplication itself
or at the following `costo_total += subtotal`. -/
def calcular_paso (catalogo : List PyDict) (acc : ℚ × List String)
    (item : PyDict) : Except String (ℚ × List String) :=
  let producto := item.get "Product"
  let quantity := item.get "Quantity"
  if producto.truthy && quantity.truthy then
    match cruce catalogo producto with
    | coincidente :: _ =>
      let price := coincidente.get "price"
      if price ≠ PyVal.none then
        match quantity.toNum, price.toNum with
        | some q, some p => .ok (acc.1 + q * p, acc.2)
        | _, _ => .error "TypeError"
      else
        .ok (acc.1, acc.2 ++ ["No existe precio para '" ++ producto.pyStr ++ "'"])
    | [] =>
      .ok (acc.1, acc.2 ++ ["No se encontró el producto '" ++ producto.pyStr ++ "'"])
  else
    .ok (acc.1, acc.2 ++ ["No se encontró el campo 'product' o 'Quantity'."])

/-- The `for item in ventas:` loop of lines 57-78, one `calcular_paso` per
record in input order; a raise anywhere stops the loop and propagates. -/
def bucle_ventas (catalogo : List PyDict) :
    ℚ × List String → List PyDict → Except String (ℚ × List String)
  | acc, [] => .ok acc
  | acc, item :: resto =>
    match calcular_paso catalogo acc item with
    | .ok acc2 => bucle_ventas catalogo acc2 resto
    | .error m => .error m

/-- Lines 39-80: `calcular_costo_total(catalogo, ventas, errores)`.
`Option.none` inputs model Python `None`; the result pairs the returned
value (`Option.none` for a returned `None`) with the final contents of the
caller's `errores` list; `Except.error` models an uncaught exception. -/
def calcular_costo_total (catalogo ventas : Option (List PyDict))
    (errores : List String) : Except String (Option ℚ × List String) :=
  match catalogo, ventas with
  | some cat, some vts =>
    match bucle_ventas cat ((0 : ℚ), errores) vts with
    | .ok r => .ok (some r.1, r.2)
    | .error m => .error m
  | _, _ => .ok (Option.none, errores)

/-- Python `round(x, 2)`: rounding to two decimal places (tie-handling at
exact half-cents differs from float bankers rounding, which no input in the
theorems below reaches). -/
def round2 (q : ℚ) : ℚ := (round (q * 100) : ℚ) / 100

/-- Specification-side contribution of one sales record to the total,
written from the spec's words: a record with a present truthy Product and
Quantity whose product matches a catalog entry (first match) carrying a
non-absent price contributes the unrounded `quantity * price`; every other
record contributes nothing. -/
def contribucion (catalogo : List PyDict) (item : PyDict) : ℚ :=
  let producto := item.get "Product"
  let quantity := item.get "Quantity"
  if producto.truthy && quantity.truthy then
    match cruce catalogo producto with
    | coincidente :: _ =>
      let price := coincidente.get "price"
      if price ≠ PyVal.none then
        (quantity.toNum.getD 0) * (price.toNum.getD 0)
      else 0
    | [] => 0
  else 0

/-- One line of the breakdown table as the report renders it: the displayed
product, quantity and unit price values and the subtotal rounded to two
decimals (`round(quantity * price, 2)`).  The fixed-width text formatting of
the line is plumbing and is abstracted to this tuple of displayed values. -/
structure Fila where
  producto : PyVal
  quantity : PyVal
  price : PyVal
  subtotal : ℚ
  deriving DecidableEq

/-- The breakdown-table loop, as written twice in the source: lines 107-119
of `escribir_archivo` and lines 156-170 of `main`.  For every sales record
it recomputes the catalog match from the raw inputs; a record whose Product
matches no catalog title is silently skipped (no row), and a matched record
reaches `round(quantity * price, 2)` with no check that Quantity or price is
present, so a non-numeric `quantity` or `price` there raises (`TypeError` at
the multiplication, or at `round` when the multiplication produced a
string), aborting the loop. -/
def filas (catalogo : List PyDict) : List PyDict → Except String (List Fila)
  | [] => .ok []
  | item :: resto =>
    let producto := item.get "Product"
    let quantity := item.get "Quantity"
    match cruce catalogo producto with
    | coincidente :: _ =>
      let price := coincidente.get "price"
      match quantity.toNum, price.toNum with
      | some q, some p =>
        (filas catalogo resto).map
          (fun r => { producto := producto, quantity := quantity,
                      price := price, subtotal := round2 (q * p) } :: r)
      | _, _ => .error "TypeError"
    | [] => filas catalogo resto

/-- What SalesResults.txt holds after a completed `escribir_archivo` run
(lines 83-122): the error block (one bullet per error, present only when
errors exist), the breakdown table, and the formatted total.  Text layout
(widths, separators, the elapsed-time line) is plumbing and abstracted. -/
structure Reporte where
  bloque_errores : List String
  tabla : List Fila
  costo : ℚ
  deriving DecidableEq

/-- Lines 83-122: `escribir_archivo`.  Opens SalesResults.txt fresh and
renders the error block, the recomputed breakdown table and the total;
`Except.error` models a raise inside the row loop, which aborts the write
with the file only partially rendered. -/
def escribir_archivo (costo_form : ℚ) (ventas catalogo : List PyDict)
    (errores : List String) : Except String Reporte :=
  (filas catalogo ventas).map
    (fun t => { bloque_errores := errores, tabla := t, costo := costo_form })

/-- What stands in the file system at a path `leer_archivo_json` opens:
the file is absent, holds malformed JSON, fails with another I/O error, or
decodes to a list of JSON objects. -/
inductive Archivo where
  | no_existe
  | json_invalido
  | io_error
  | datos (registros : List PyDict)

/-- A message the program prints, identified by which print statement emits
it.  Each loader failure prints a distinct message naming its condition:
`no_encontrado ruta` is line 29 (`"Archivo '<ruta>' no encontrado en la ruta
indicada."`), `decodificacion` line 32, `lectura` line 35, `uso` the usage
line 128, `errores_detalle` the error block of lines 143-146, and
`resultado` the `Costo Total` line 172 with the rounded total it displays. -/
inductive Mensaje where
  | uso
  | no_encontrado (ruta : String)
  | decodificacion (ruta : String)
  | lectura (ruta : String)
  | errores_detalle (errs : List String)
  | resultado (costo : ℚ)
  deriving DecidableEq

/-- Lines 15-36: `leer_archivo_json(ruta_archivo)`.  Returns the decoded
data, or `Option.none` after printing the failure's specific message. -/
def leer_archivo_json (fs : String → Archivo) (ruta : String) :
    Option (List PyDict) × List Mensaje :=
  match fs ruta with
  | .datos registros => (some registros, [])
  | .no_existe => (Option.none, [Mensaje.no_encontrado ruta])
  | .json_invalido => (Option.none, [Mensaje.decodificacion ruta])
  | .io_error => (Option.none, [Mensaje.lectura ruta])

/-- The observable outcome of one process run: the exit status, the
messages printed, the value shown on the `Costo Total` line (when reached),
and the SalesResults.txt contents (`Option.none` when no complete report
file is written). -/
structure ResultadoMain where
  codigo_salida : Nat
  mensajes : List Mensaje
  costo : Option ℚ
  reporte : Option Reporte
  deriving DecidableEq

/-- Lines 125-181: `main()`.  Wrong arity exits 1 via `sys.exit(1)` after
the usage message.  Both files are loaded; if either load returned `None`,
the `if` at line 137 is false and `main` falls through, returning normally
(process exit status 0) with no report.  Otherwise line 140 rounds the
computed total once (an exception there, or in the console row loop of
lines 156-170, is uncaught: Python exits 1 and `escribir_archivo` is never
called), the error block and total are printed, and `escribir_archivo`
writes the report. -/
def main (argv : List String) (fs : String → Archivo) : ResultadoMain :=
  if argv.length ≠ 3 then
    { codigo_salida := 1, mensajes := [Mensaje.uso],
      costo := Option.none, reporte := Option.none }
  else
    let ruta_archivo1 := argv.getD 1 ""
    let ruta_archivo2 := argv.getD 2 ""
    let carga1 := leer_archivo_json fs ruta_archivo1
    let carga2 := leer_archivo_json fs ruta_archivo2
    match carga1.1, carga2.1 with
    | some catalogo, some ventas =>
      match calcular_costo_total (some catalogo) (some ventas) [] with
      | .error _ =>
        { codigo_salida := 1, mensajes := carga1.2 ++ carga2.2,
          costo := Option.none, reporte := Option.none }
      | .ok (Option.none, _) =>
        { codigo_salida := 1, mensajes := carga1.2 ++ carga2.2,
          costo := Option.none, reporte := Option.none }
      | .ok (some t, errores) =>
        let costo_total := round2 t
        let previos := carga1.2 ++ carga2.2 ++
          (if errores.length > 0 then [Mensaje.errores_detalle errores] else [])
        match escribir_archivo costo_total ventas catalogo errores with
        | .error _ =>
          { codigo_salida := 1, mensajes := previos,
            costo := Option.none, reporte := Option.none }
        | .ok rep =>
          { codigo_salida := 0,
            mensajes := previos ++ [Mensaje.resultado costo_total],
            costo := some costo_total, reporte := some rep }
    | _, _ =>
      { codigo_salida := 0, mensajes := carga1.2 ++ carga2.2,
        costo := Option.none, reporte := Option.none }

/-- Specification-side description of one breakdown-table line: a record
whose Product matches a catalog title produces exactly one row, built from
the first matching entry, with no check that Quantity or the entry's price
is present; an unmatched record produces none. -/
def fila_calculada (catalogo : List PyDict) (item : PyDict) : Option Fila :=
  match cruce catalogo (item.get "Product") with
  | coincidente :: _ =>
    some { producto := item.get "Product", quantity := item.get "Quantity",
           price := coincidente.get "price",
           subtotal := round2 (((item.get "Quantity").toNum.getD 0) *
             ((coincidente.get "price").toNum.getD 0)) }
  | [] => Option.none

/-- Python `==` against a string compares structurally: only the equal
string is `True`, every other value (including numbers) is `False`. -/
lemma pyEq_str (v : PyVal) (s : String) :
    pyEq v (PyVal.str s) = decide (v = PyVal.str s) := by
  cases v <;> simp [pyEq, PyVal.toNum]

/-- An exception-free `calcular_paso` either contributes the record's
`contribucion` to the total and leaves the errors untouched, or appends
exactly one error and leaves the total untouched (a record with an appended
error has zero contribution). -/
lemma calcular_paso_cases (cat : List PyDict) (acc : ℚ × List String)
    (item : PyDict) (acc2 : ℚ × List String)
    (h : calcular_paso cat acc item = .ok acc2) :
    acc2 = (acc.1 + contribucion cat item, acc.2) ∨
      (∃ m, acc2 = (acc.1, acc.2 ++ [m]) ∧ contribucion cat item = 0) := by
  simp only [calcular_paso] at h
  simp only [contribucion]
  cases hb : (item.get "Product").truthy && (item.get "Quantity").truthy with
  | false =>
    simp only [hb, if_neg] at h ⊢
    simp only [Bool.false_eq_true, if_false] at h ⊢
    right
    exact ⟨_, (Except.ok.inj h).symm, trivial⟩
  | true =>
    simp only [hb, if_true] at h ⊢
    cases hcru : cruce cat (item.get "Product") with
    | nil =>
      simp only [hcru] at h ⊢
      right
      exact ⟨_, (Except.ok.inj h).symm, trivial⟩
    | cons coincidente resto =>
      simp only [hcru] at h ⊢
      by_cases hpr : coincidente.get "price" = PyVal.none
      · simp only [hpr, ne_eq, not_true_eq_false, if_false] at h ⊢
        right
        exact ⟨_, (Except.ok.inj h).symm, trivial⟩
      · simp only [ne_eq, hpr, not_false_eq_true, if_true] at h ⊢
        cases hq : (item.get "Quantity").toNum with
        | none => simp only [hq] at h; exact absurd h (by simp)
        | some q =>
          cases hp : (coincidente.get "price").toNum with
          | none => simp only [hq, hp] at h; exact absurd h (by simp)
          | some p =>
            simp only [hq, hp] at h ⊢
            left
            simp only [Except.ok.injEq] at h
            simp [← h]

/-- An exception-free sales loop run adds exactly the records'
contributions to the incoming total. -/
lemma bucle_ventas_suma (cat : List PyDict) :
    ∀ (vts : List PyDict) (acc r : ℚ × List String),
      bucle_ventas cat acc vts = .ok r →
      r.1 = acc.1 + (vts.map (contribucion cat)).sum := by
  intro vts
  induction vts with
  | nil =>
    intro acc r h
    simp only [bucle_ventas, Except.ok.injEq] at h
    simp [← h]
  | cons item resto ih =>
    intro acc r h
    simp only [bucle_ventas] at h
    cases hstep : calcular_paso cat acc item with
    | error m => rw [hstep] at h; exact absurd h (by simp)
    | ok acc2 =>
      rw [hstep] at h
      have hmid := ih acc2 r h
      rcases calcular_paso_cases cat acc item acc2 hstep with hc | ⟨m, hc, hz⟩
      · rw [hmid, hc]
        simp [add_assoc]
      · rw [hmid, hc]
        simp [hz]

/-- A step whose record carries a numeric-or-absent Quantity, against a
catalog whose prices are numeric or absent, never raises. -/
lemma calcular_paso_no_lanza (cat : List PyDict) (acc : ℚ × List String)
    (item : PyDict)
    (hq : (item.get "Quantity").toNum.isSome ∨ item.get "Quantity" = PyVal.none)
    (hp : ∀ c ∈ cat, (c.get "price").toNum.isSome ∨ c.get "price" = PyVal.none) :
    ∃ acc2, calcular_paso cat acc item = .ok acc2 := by
  simp only [calcular_paso]
  cases hb : (item.get "Product").truthy && (item.get "Quantity").truthy with
  | false => simp [hb]
  | true =>
    simp only [hb, if_true]
    cases hcru : cruce cat (item.get "Product") with
    | nil => simp
    | cons coincidente resto =>
      have hmem : coincidente ∈ cat := by
        have : coincidente ∈ cruce cat (item.get "Product") := by
          rw [hcru]; exact List.mem_cons_self _ _
        exact List.mem_of_mem_filter this
      by_cases hpr : coincidente.get "price" = PyVal.none
      · simp [hpr]
      · simp only [ne_eq, hpr, not_false_eq_true, if_true]
        have hqn : (item.get "Quantity").toNum.isSome := by
          rcases hq with hq | hq
          · exact hq
          · exfalso
            have : (item.get "Quantity").truthy = true := by
              cases hand : (item.get "Product").truthy <;> simp_all
            rw [hq] at this
            simp [PyVal.truthy] at this
        have hpn : (coincidente.get "price").toNum.isSome := by
          rcases hp coincidente hmem with h | h
          · exact h
          · exact absurd h hpr
        rcases Option.isSome_iff_exists.mp hqn with ⟨q, hq2⟩
        rcases Option.isSome_iff_exists.mp hpn with ⟨p, hp2⟩
        rw [hq2, hp2]
        simp

/-- A sales loop over such records and such a catalog never raises. -/
lemma bucle_ventas_no_lanza (cat : List PyDict) :
    ∀ (vts : List PyDict) (acc : ℚ × List String),
      (∀ item ∈ vts,
        (item.get "Quantity").toNum.isSome ∨ item.get "Quantity" = PyVal.none) →
      (∀ c ∈ cat, (c.get "price").toNum.isSome ∨ c.get "price" = PyVal.none) →
      ∃ r, bucle_ventas cat acc vts = .ok r := by
  intro vts
  induction vts with
  | nil => intro acc _ _; exact ⟨acc, rfl⟩
  | cons item resto ih =>
    intro acc hq hp
    rcases calcular_paso_no_lanza cat acc item
        (hq item (List.mem_cons_self _ _)) hp with ⟨acc2, hstep⟩
    rcases ih acc2 (fun i hi => hq i (List.mem_cons_of_mem _ hi)) hp with ⟨r, hr⟩
    refine ⟨r, ?_⟩
    simp only [bucle_ventas, hstep, hr]

/-- An exception-free breakdown-table loop renders exactly one row per
title-matched record, in input order, as `fila_calculada` describes. -/
lemma filas_ok_filterMap (cat : List PyDict) :
    ∀ (vts : List PyDict) (rows : List Fila),
      filas cat vts = .ok rows → rows = vts.filterMap (fila_calculada cat) := by
  intro vts
  induction vts with
  | nil =>
    intro rows h
    simp only [filas, Except.ok.injEq] at h
    simp [← h]
  | cons item resto ih =>
    intro rows h
    simp only [filas] at h
    rw [List.filterMap_cons]
    cases hcru : cruce cat (item.get "Product") with
    | nil =>
      simp only [hcru] at h
      simp only [fila_calculada, hcru]
      exact ih rows h
    | cons coincidente r2 =>
      simp only [hcru] at h
      cases hq : (item.get "Quantity").toNum with
      | none => simp only [hq] at h; exact absurd h (by simp)
      | some q =>
        cases hp : (coincidente.get "price").toNum with
        | none => simp only [hq, hp] at h; exact absurd h (by simp)
        | some p =>
          simp only [hq, hp] at h
          cases hrec : filas cat resto with
          | error m => simp only [hrec, Except.map] at h; exact absurd h (by simp)
          | ok rs =>
            simp only [hrec, Except.map, Except.ok.injEq] at h
            simp only [fila_calculada, hcru, hq, hp, Option.getD_some]
            rw [← h, ih rs hrec]

/-- A title-matched record with an absent Quantity or an absent price makes
the breakdown-table loop raise, wherever the record stands in the list. -/
lemma filas_lanza (cat : List PyDict) :
    ∀ (vts : List PyDict) (item coincidente : PyDict) (resto : List PyDict),
      item ∈ vts →
      cruce cat (item.get "Product") = coincidente :: resto →
      (item.get "Quantity" = PyVal.none ∨ coincidente.get "price" = PyVal.none) →
      ∃ m, filas cat vts = Except.error m := by
  intro vts
  induction vts with
  | nil => intro _ _ _ hmem; exact absurd hmem (List.not_mem_nil _)
  | cons primero siguientes ih =>
    intro item coincidente resto hmem hcru hnone
    rcases List.mem_cons.mp hmem with rfl | htail
    · refine ⟨"TypeError", ?_⟩
      simp only [filas, hcru]
      rcases hnone with hn | hn
      · rw [hn]
        cases h2 : (coincidente.get "price").toNum <;> simp [PyVal.toNum]
      · rw [hn]
        cases h2 : (item.get "Quantity").toNum <;> simp [PyVal.toNum]
    · rcases ih item coincidente resto htail hcru hnone with ⟨m, hrec⟩
      simp only [filas]
      cases hcru1 : cruce cat (primero.get "Product") with
      | nil => exact ⟨m, by simp only [hcru1]; exact hrec⟩
      | cons c1 r1 =>
        simp only [hcru1]
        cases hq1 : (primero.get "Quantity").toNum with
        | none => exact ⟨"TypeError", by simp [hq1]⟩
        | some q1 =>
          cases hp1 : (c1.get "price").toNum with
          | none => exact ⟨"TypeError", by simp [hq1, hp1]⟩
          | some p1 => exact ⟨m, by simp only [hq1, hp1, hrec]; rfl⟩

/-- The first-match lookup: the head of the comprehension's result is the
first catalog entry whose title compares equal to the product. -/
lemma cruce_head_find (cat : List PyDict) (producto : PyVal) :
    (cruce cat producto).head? =
      cat.find? (fun p => pyEq (p.get "title") producto) := by
  induction cat with
  | nil => rfl
  | cons c cs ih =>
    cases h : pyEq (c.get "title") producto with
    | false => simp only [cruce, List.filter_cons, h, List.find?_cons, if_false]
               exact ih
    | true => simp [cruce, List.filter_cons, h, List.find?_cons]

/-- A returned (non-raising) `calcular_costo_total` run computes exactly
the sum of the records' unrounded contributions. -/
lemma calcular_ok_suma (cat vts : List PyDict) (errs : List String) (t : ℚ)
    (e2 : List String)
    (h : calcular_costo_total (some cat) (some vts) errs = .ok (some t, e2)) :
    t = (vts.map (contribucion cat)).sum := by
  simp only [calcular_costo_total] at h
  cases hb : bucle_ventas cat (0, errs) vts with
  | error m => simp [hb] at h
  | ok r =>
    simp only [hb, Except.ok.injEq, Prod.mk.injEq, Option.some.injEq] at h
    have hs := bucle_ventas_suma cat vts (0, errs) r hb
    rw [← h.1, hs]
    simp

/-- C1: the total returned by `calcular_costo_total` is the full-precision,
unrounded sum of `quantity * price` over exactly the sales records with a
present truthy Product and Quantity whose product matches a catalog entry
with a non-absent price; the one rounding to two decimals happens in `main`
(line 140), after all records are processed, and is what the displayed
`Costo Total` carries. -/
theorem C1_total_sin_redondeo_intermedio :
    (∀ (cat vts : List PyDict) (errs : List String) (t : ℚ) (e2 : List String),
      calcular_costo_total (some cat) (some vts) errs = .ok (some t, e2) →
      t = (vts.map (contribucion cat)).sum) ∧
    (∀ (prog r1 r2 : String) (fs : String → Archivo) (cat vts : List PyDict)
        (c : ℚ),
      fs r1 = Archivo.datos cat → fs r2 = Archivo.datos vts →
      (main [prog, r1, r2] fs).costo = some c →
      c = round2 ((vts.map (contribucion cat)).sum)) := by
  constructor
  · exact calcular_ok_suma
  · intro prog r1 r2 fs cat vts c hf1 hf2 hc
    have hl1 : leer_archivo_json fs r1 = (some cat, []) := by
      simp [leer_archivo_json, hf1]
    have hl2 : leer_archivo_json fs r2 = (some vts, []) := by
      simp [leer_archivo_json, hf2]
    simp only [main, List.length_cons, List.length_nil] at hc
    rw [if_neg (by omega)] at hc
    simp only [List.getD, List.get?_cons_succ, List.get?_cons_zero,
      Option.getD_some, hl1, hl2] at hc
    cases hcv : calcular_costo_total (some cat) (some vts) [] with
    | error m => simp [hcv] at hc
    | ok par =>
      rcases par with ⟨t?, errores⟩
      cases t? with
      | none => simp [hcv] at hc
      | some t =>
        simp only [hcv] at hc
        cases hesc : escribir_archivo (round2 t) vts cat errores with
        | error m => simp [hesc] at hc
        | ok rep =>
          simp only [hesc, Option.some.injEq] at hc
          rw [← hc, calcular_ok_suma cat vts [] t errores hcv]

/-- C1 witness: in a concrete run (catalog price 1.5, quantity 4) the
returned total is the unrounded sum 6. -/
theorem C1_total_sin_redondeo_intermedio_witness :
    (6 : ℚ) =
      (([[("Product", PyVal.str "Pen"), ("Quantity", PyVal.num 4)]].map
        (contribucion [[("title", PyVal.str "Pen"),
          ("price", PyVal.num 1.5)]])).sum) :=
  C1_total_sin_redondeo_intermedio.1
    [[("title", PyVal.str "Pen"), ("price", PyVal.num 1.5)]]
    [[("Product", PyVal.str "Pen"), ("Quantity", PyVal.num 4)]]
    [] 6 []
    (by norm_num +decide [calcular_costo_total, bucle_ventas, calcular_paso,
      cruce, PyDict.get, PyVal.truthy, pyEq, PyVal.toNum, List.filter])

/-- C2: an exception-free processing of one sales record yields exactly one
of: a contribution to the running total (errors list untouched), or exactly
one appended error message (total untouched) — never both, never neither. -/
theorem C2_registro_contribucion_o_un_error :
    ∀ (cat : List PyDict) (acc : ℚ × List String) (item : PyDict)
      (acc2 : ℚ × List String),
      calcular_paso cat acc item = .ok acc2 →
      ((acc2.2 = acc.2 ∧ acc2.1 = acc.1 + contribucion cat item) ∨
        (∃ m, acc2.2 = acc.2 ++ [m] ∧ acc2.1 = acc.1)) ∧
      ¬(acc2.2 = acc.2 ∧ ∃ m, acc2.2 = acc.2 ++ [m]) := by
  intro cat acc item acc2 h
  constructor
  · rcases calcular_paso_cases cat acc item acc2 h with hc | ⟨m, hc, _⟩
    · left; rw [hc]; exact ⟨rfl, rfl⟩
    · right; exact ⟨m, by rw [hc], by rw [hc]⟩
  · rintro ⟨h1, m, h2⟩
    rw [h1] at h2
    exact absurd h2 (by simp)

/-- C2 witness: the concrete matched record contributes 6 and appends no
error. -/
theorem C2_registro_contribucion_o_un_error_witness :
    ((([] : List String) = [] ∧ (6 : ℚ) = 0 +
        contribucion [[("title", PyVal.str "Pen"), ("price", PyVal.num 1.5)]]
          [("Product", PyVal.str "Pen"), ("Quantity", PyVal.num 4)]) ∨
      (∃ m, ([] : List String) = [] ++ [m] ∧ (6 : ℚ) = 0)) ∧
    ¬(([] : List String) = [] ∧ ∃ m, ([] : List String) = [] ++ [m]) :=
  C2_registro_contribucion_o_un_error
    [[("title", PyVal.str "Pen"), ("price", PyVal.num 1.5)]]
    (0, []) [("Product", PyVal.str "Pen"), ("Quantity", PyVal.num 4)]
    (6, [])
    (by norm_num +decide [calcular_paso, cruce, PyDict.get, PyVal.truthy,
      pyEq, PyVal.toNum, List.filter])

/-- C3 counterexample: `calcular_costo_total` does raise on a malformed
individual record.  With a well-formed catalog and a sales record whose
Quantity is the truthy string "abc", line 71 computes `"abc" * 1.5`, which
raises `TypeError` (with an integer price the raise moves to
`costo_total += subtotal`); the run does not complete and returns no
total. -/
theorem C3_contraejemplo_quantity_texto :
    calcular_costo_total
        (some [[("title", PyVal.str "Pen"), ("price", PyVal.num 1.5)]])
        (some [[("Product", PyVal.str "Pen"), ("Quantity", PyVal.str "abc")]])
        [] = Except.error "TypeError" := by
  norm_num +decide [calcular_costo_total, bucle_ventas, calcular_paso, cruce,
    PyDict.get, PyVal.truthy, pyEq, PyVal.toNum, List.filter]

/-- C3 (amended): `calcular_costo_total` completes and returns a total for
every catalog and sales list whose Quantity fields and price fields are
numeric or absent — malformed in any other way (missing fields, falsy
fields, unmatched products, absent prices) it never raises; a truthy
non-numeric Quantity, or a present non-numeric price, on a matched record
reaches the multiplication and raises. -/
theorem C3_no_lanza_con_valores_numericos :
    ∀ (cat vts : List PyDict) (errs : List String),
      (∀ item ∈ vts,
        (item.get "Quantity").toNum.isSome ∨ item.get "Quantity" = PyVal.none) →
      (∀ c ∈ cat, (c.get "price").toNum.isSome ∨ c.get "price" = PyVal.none) →
      ∃ t e2, calcular_costo_total (some cat) (some vts) errs =
        .ok (some t, e2) := by
  intro cat vts errs hq hp
  rcases bucle_ventas_no_lanza cat vts (0, errs) hq hp with ⟨r, hr⟩
  exact ⟨r.1, r.2, by simp only [calcular_costo_total, hr]⟩

/-- C3 witness: a concrete run with numeric fields — including a malformed
record with a missing Quantity — completes with a returned total. -/
theorem C3_no_lanza_con_valores_numericos_witness :
    ∃ t e2, calcular_costo_total
      (some [[("title", PyVal.str "Pen"), ("price", PyVal.num 1.5)]])
      (some [[("Product", PyVal.str "Pen"), ("Quantity", PyVal.num 4)],
             [("Product", PyVal.str "Pen")]])
      [] = .ok (some t, e2) :=
  C3_no_lanza_con_valores_numericos
    [[("title", PyVal.str "Pen"), ("price", PyVal.num 1.5)]]
    [[("Product", PyVal.str "Pen"), ("Quantity", PyVal.num 4)],
     [("Product", PyVal.str "Pen")]]
    [] (by decide) (by decide)

/-- C4 counterexample: with the catalog file absent, `main` prints the
specific not-found message and writes no report, but the `if` at line 137
is simply false and `main` returns normally — the process exit status is 0,
not non-zero as the claim states. -/
theorem C4_contraejemplo_salida_cero :
    (main ["computeSales.py", "c.json", "v.json"]
      (fun r => if r = "c.json" then Archivo.no_existe
                else Archivo.datos [])).codigo_salida = 0 ∧
    (main ["computeSales.py", "c.json", "v.json"]
      (fun r => if r = "c.json" then Archivo.no_existe
                else Archivo.datos [])).mensajes =
      [Mensaje.no_encontrado "c.json"] ∧
    (main ["computeSales.py", "c.json", "v.json"]
      (fun r => if r = "c.json" then Archivo.no_existe
                else Archivo.datos [])).reporte = Option.none := by
  refine ⟨?_, ?_, ?_⟩ <;>
    norm_num +decide [main, leer_archivo_json, List.getD]

/-- C4 (amended): wrong argument count reports the usage message, exits
non-zero (status 1) and writes no report.  A failed load — file not found,
JSON decode failure, or another I/O failure — reports that condition's
specific message and writes no report, but the process then returns
normally from `main`, exiting with status 0, not non-zero. -/
theorem C4_fatales_mensaje_sin_reporte :
    (∀ (argv : List String) (fs : String → Archivo), argv.length ≠ 3 →
      main argv fs = { codigo_salida := 1, mensajes := [Mensaje.uso],
                       costo := Option.none, reporte := Option.none }) ∧
    (∀ (prog r1 r2 : String) (fs : String → Archivo),
      (leer_archivo_json fs r1).1 = Option.none ∨
        (leer_archivo_json fs r2).1 = Option.none →
      main [prog, r1, r2] fs =
        { codigo_salida := 0,
          mensajes := (leer_archivo_json fs r1).2 ++ (leer_archivo_json fs r2).2,
          costo := Option.none, reporte := Option.none }) ∧
    (∀ (fs : String → Archivo) (r : String), fs r = Archivo.no_existe →
      leer_archivo_json fs r = (Option.none, [Mensaje.no_encontrado r])) ∧
    (∀ (fs : String → Archivo) (r : String), fs r = Archivo.json_invalido →
      leer_archivo_json fs r = (Option.none, [Mensaje.decodificacion r])) := by
  refine ⟨?_, ?_, ?_, ?_⟩
  · intro argv fs h
    simp only [main, if_pos h]
  · intro prog r1 r2 fs hfail
    simp only [main, List.length_cons, List.length_nil]
    rw [if_neg (by omega)]
    simp only [List.getD, List.get?_cons_succ, List.get?_cons_zero,
      Option.getD_some]
    rcases hfail with hf | hf
    · rw [hf]
    · rw [hf]
      cases (leer_archivo_json fs r1).1 <;> rfl
  · intro fs r h
    simp [leer_archivo_json, h]
  · intro fs r h
    simp [leer_archivo_json, h]

/-- C4 witness: a concrete missing sales file yields exit status 0, its
specific message and no report. -/
theorem C4_fatales_mensaje_sin_reporte_witness :
    main ["computeSales.py", "c.json", "v.json"]
      (fun r => if r = "v.json" then Archivo.no_existe
                else Archivo.datos []) =
      { codigo_salida := 0, mensajes := [Mensaje.no_encontrado "v.json"],
        costo := Option.none, reporte := Option.none } := by
  have h := C4_fatales_mensaje_sin_reporte.2.1 "computeSales.py" "c.json"
    "v.json"
    (fun r => if r = "v.json" then Archivo.no_existe else Archivo.datos [])
    (Or.inr (by norm_num +decide [leer_archivo_json]))
  rw [h]
  norm_num +decide [leer_archivo_json]

/-- C5 counterexample: for an unmatched product the appended error string
is the Spanish `"No se encontró el producto '<product>'"` of line 76, not
the English `"product '<product>' not found"` the claim states. -/
theorem C5_contraejemplo_mensaje :
    calcular_costo_total (some [])
        (some [[("Product", PyVal.str "Eraser"), ("Quantity", PyVal.num 1)]])
        [] = .ok (some 0, ["No se encontró el producto 'Eraser'"]) ∧
    ("No se encontró el producto 'Eraser'" : String) ≠
      "product 'Eraser' not found" := by
  constructor
  · norm_num +decide [calcular_costo_total, bucle_ventas, calcular_paso,
      cruce, PyDict.get, PyVal.truthy, pyEq, PyVal.toNum, List.filter,
      PyVal.pyStr]
  · decide

/-- C5 (amended): a record with a present truthy string Product and truthy
Quantity whose product equals no catalog title appends exactly the error
`"No se encontró el producto '<product>'"` and contributes nothing to the
total. -/
theorem C5_producto_no_encontrado :
    ∀ (cat : List PyDict) (acc : ℚ × List String) (item : PyDict) (s : String),
      item.get "Product" = PyVal.str s →
      (PyVal.str s).truthy = true →
      (item.get "Quantity").truthy = true →
      (∀ c ∈ cat, c.get "title" ≠ PyVal.str s) →
      calcular_paso cat acc item =
        .ok (acc.1, acc.2 ++ ["No se encontró el producto '" ++ s ++ "'"]) := by
  intro cat acc item s hprod htru hq hno
  have hcru : cruce cat (PyVal.str s) = [] := by
    rw [cruce, List.filter_eq_nil_iff]
    intro c hc
    rw [pyEq_str]
    simpa using hno c hc
  simp only [calcular_paso, hprod, htru, hq, Bool.and_self, if_true, hcru]
  rfl

/-- C5 witness: the unmatched record "Eraser" appends exactly the Spanish
message and leaves the total at 0. -/
theorem C5_producto_no_encontrado_witness :
    calcular_paso [] ((0 : ℚ), [])
        [("Product", PyVal.str "Eraser"), ("Quantity", PyVal.num 1)] =
      .ok (0, [] ++ ["No se encontró el producto '" ++ "Eraser" ++ "'"]) :=
  C5_producto_no_encontrado [] (0, [])
    [("Product", PyVal.str "Eraser"), ("Quantity", PyVal.num 1)] "Eraser"
    (by decide) (by decide) (by decide) (by decide)

/-- C6: a record whose Product or Quantity is absent or falsy (a Quantity
of 0 included, by the truthiness test of line 61) appends exactly one
error, contributes nothing, and performs no catalog lookup: its processing
does not depend on the catalog at all. -/
theorem C6_campo_faltante :
    ∀ (cat : List PyDict) (acc : ℚ × List String) (item : PyDict),
      ((item.get "Product").truthy && (item.get "Quantity").truthy) = false →
      calcular_paso cat acc item =
        .ok (acc.1,
          acc.2 ++ ["No se encontró el campo 'product' o 'Quantity'."]) ∧
      (∀ cat2 : List PyDict,
        calcular_paso cat2 acc item = calcular_paso cat acc item) := by
  intro cat acc item h
  constructor
  · simp only [calcular_paso, h, Bool.false_eq_true, if_false]
  · intro cat2
    simp only [calcular_paso, h, Bool.false_eq_true, if_false]

/-- C6 witness: a record with Quantity 0 is treated as missing — one error
appended, nothing contributed, same result under a different catalog. -/
theorem C6_campo_faltante_witness :
    calcular_paso [[("title", PyVal.str "Pen"), ("price", PyVal.num 1.5)]]
        ((0 : ℚ), [])
        [("Product", PyVal.str "Pen"), ("Quantity", PyVal.num 0)] =
      .ok (0, [] ++ ["No se encontró el campo 'product' o 'Quantity'."]) ∧
    (∀ cat2 : List PyDict,
      calcular_paso cat2 ((0 : ℚ), [])
          [("Product", PyVal.str "Pen"), ("Quantity", PyVal.num 0)] =
        calcular_paso [[("title", PyVal.str "Pen"), ("price", PyVal.num 1.5)]]
          ((0 : ℚ), [])
          [("Product", PyVal.str "Pen"), ("Quantity", PyVal.num 0)]) :=
  C6_campo_faltante [[("title", PyVal.str "Pen"), ("price", PyVal.num 1.5)]]
    (0, []) [("Product", PyVal.str "Pen"), ("Quantity", PyVal.num 0)]
    (by decide)

/-- C7: the entry `calcular_costo_total` uses (`cruce[0]`, the head of the
comprehension of lines 62-65) is the first catalog entry, in catalog order,
whose title compares equal to the product, and on strings that comparison
is case-sensitive exact equality. -/
theorem C7_primera_coincidencia_exacta :
    (∀ (cat : List PyDict) (producto : PyVal),
      (cruce cat producto).head? =
        cat.find? (fun p => pyEq (p.get "title") producto)) ∧
    (∀ s t : String, pyEq (PyVal.str s) (PyVal.str t) = true ↔ s = t) := by
  constructor
  · exact cruce_head_find
  · intro s t
    rw [pyEq_str]
    simp

/-- C8: `calcular_costo_total` is deterministic — two runs on the same
catalog, the same sales list and the same incoming errors list return the
same result, total and final errors list alike. -/
theorem C8_determinista :
    ∀ (catalogo ventas : Option (List PyDict)) (errores : List String)
      (r1 r2 : Except String (Option ℚ × List String)),
      calcular_costo_total catalogo ventas errores = r1 →
      calcular_costo_total catalogo ventas errores = r2 → r1 = r2 := by
  intro _ _ _ _ _ h1 h2
  rw [← h1, ← h2]

/-- C8 witness: two concrete identical runs agree. -/
theorem C8_determinista_witness :
    (Except.ok (some (0 : ℚ), ([] : List String)) :
        Except String (Option ℚ × List String)) =
      Except.ok (some 0, []) :=
  C8_determinista (some []) (some []) []
    (Except.ok (some 0, [])) (Except.ok (some 0, [])) rfl rfl

/-- C9: the report writer recomputes the breakdown from the raw sales and
catalog inputs: a completed write renders exactly one row per sales record
whose Product matches some catalog title (as `fila_calculada` describes),
with no check that Quantity or the matched entry's price is present — and
for a title-matched record with an absent Quantity or an absent price the
`round(quantity * price, 2)` of line 117 raises a `TypeError` and the
report write aborts. -/
theorem C9_reporte_recalculado_y_aborta :
    (∀ (costo : ℚ) (vts cat : List PyDict) (errores : List String)
        (rep : Reporte),
      escribir_archivo costo vts cat errores = .ok rep →
      rep.tabla = vts.filterMap (fila_calculada cat) ∧
        rep.bloque_errores = errores) ∧
    (∀ (costo : ℚ) (vts cat : List PyDict) (errores : List String)
        (item coincidente : PyDict) (resto : List PyDict),
      item ∈ vts →
      cruce cat (item.get "Product") = coincidente :: resto →
      (item.get "Quantity" = PyVal.none ∨
        coincidente.get "price" = PyVal.none) →
      ∃ m, escribir_archivo costo vts cat errores = Except.error m) := by
  constructor
  · intro costo vts cat errores rep h
    simp only [escribir_archivo] at h
    cases hf : filas cat vts with
    | error m => simp [hf, Except.map] at h
    | ok rows =>
      simp only [hf, Except.map, Except.ok.injEq] at h
      rw [← h]
      exact ⟨filas_ok_filterMap cat vts rows hf, rfl⟩
  · intro costo vts cat errores item coincidente resto hmem hcru hnone
    rcases filas_lanza cat vts item coincidente resto hmem hcru hnone
      with ⟨m, hm⟩
    exact ⟨m, by simp only [escribir_archivo, hm]; rfl⟩

/-- C9 witness: a title-matched record with no Quantity field aborts a
concrete report write with a raise. -/
theorem C9_reporte_recalculado_y_aborta_witness :
    ∃ m, escribir_archivo 0
        [[("Product", PyVal.str "Pen")]]
        [[("title", PyVal.str "Pen"), ("price", PyVal.num 1.5)]]
        [] = Except.error m :=
  C9_reporte_recalculado_y_aborta.2 0
    [[("Product", PyVal.str "Pen")]]
    [[("title", PyVal.str "Pen"), ("price", PyVal.num 1.5)]]
    [] [("Product", PyVal.str "Pen")]
    [("title", PyVal.str "Pen"), ("price", PyVal.num 1.5)] []
    (by decide)
    (by norm_num +decide [cruce, PyDict.get, pyEq, PyVal.toNum, List.filter])
    (Or.inl (by decide))

/-- C10: with an absent (`None`) catalog or sales argument,
`calcular_costo_total` returns `None` at once (line 52-53) and the
caller's errors list is returned exactly as it came in — no message is
appended for this precondition failure. -/
theorem C10_entrada_ausente :
    ∀ (catalogo ventas : Option (List PyDict)) (errores : List String),
      catalogo = Option.none ∨ ventas = Option.none →
      calcular_costo_total catalogo ventas errores =
        .ok (Option.none, errores) := by
  rintro catalogo ventas errores (rfl | rfl)
  · cases ventas <;> rfl
  · cases catalogo <;> rfl

/-- C10 witness: a `None` catalog with a non-empty incoming errors list
returns `None` and that same list. -/
theorem C10_entrada_ausente_witness :
    calcular_costo_total Option.none
        (some [[("Product", PyVal.str "Pen")]]) ["previo"] =
      .ok (Option.none, ["previo"]) :=
  C10_entrada_ausente Option.none (some [[("Product", PyVal.str "Pen")]])
    ["previo"] (Or.inl rfl)

end ComputeSales
